import Mathlib

/-!
Verification of the `fibers_global` crate (src/src/lib.rs).

The crate manages one process-wide `ThreadPoolExecutor`:
a thread-count gate (`THREAD_COUNT` atomic with `get_thread_count` and
`set_thread_count`), a lazily constructed singleton (`GLOBAL_EXECUTOR`),
and a blocking bridge (`execute`) that polls a monitor until a terminal state.

Shallow embedding conventions: `usize` values are `Nat` below `2 ^ 64`;
the atomic cell is threaded as explicit state; panics are modelled as
`Option.none` or `Except.error msg` carrying the panic message from the source;
the sequence of values observed by repeated `monitor.poll()` calls in
`execute` is an explicit list.
-/

namespace FibersGlobal

/-- `std::usize::MAX` on a 64-bit host; the `LOCKED` sentinel of the gate. -/
def USIZE_MAX : Nat := 2 ^ 64 - 1

/-- Initial value of the `THREAD_COUNT` atomic, `AtomicUsize::new(0)` (lib.rs:46);
`0` is the `UNSET` sentinel. -/
def THREAD_COUNT_INIT : Nat := 0

/-- Embedding of `get_thread_count` (lib.rs:48-53).  The source performs one atomic
`THREAD_COUNT.swap(std::usize::MAX, Ordering::SeqCst)`, a single indivisible
read-and-replace, so it is modelled as a single state-passing transition: given the
host CPU count (`num_cpus::get()`) and the current value of `THREAD_COUNT`, it
returns the effective thread count together with the new value of `THREAD_COUNT`
(always `usize::MAX`).  The `match` mirrors the source: `0` yields the CPU count,
any other previous value is returned as is. -/
def get_thread_count (numCpus : Nat) (s : Nat) : Nat × Nat :=
  (match s with
   | 0 => numCpus
   | n => n,
   USIZE_MAX)

/-- Embedding of `set_thread_count` (lib.rs:63-76).  The two `assert_ne!` panics
(argument `0` or `usize::MAX`) are modelled as `none`.  The body is a
compare-and-swap retry loop; with the load and the CAS acting on the same state
value (no interference in between), the CAS succeeds on the first iteration, so the
loop reduces to: read the current value, return `false` if it is `usize::MAX`
(gate frozen), otherwise store `n` and return `true`.  Returns the call result
paired with the new value of `THREAD_COUNT`. -/
def set_thread_count (n : Nat) (s : Nat) : Option (Bool × Nat) :=
  if n = 0 then none
  else if n = USIZE_MAX then none
  else if s = USIZE_MAX then some (false, s)
  else some (true, n)

/-- A sequence of `set_thread_count` calls threaded through the `THREAD_COUNT`
state, collecting the boolean results; `none` if any call panics. -/
def runConfigs : List Nat → Nat → Option (List Bool × Nat)
  | [], s => some ([], s)
  | n :: ns, s =>
    match set_thread_count n s with
    | none => none
    | some (b, s1) =>
      match runConfigs ns s1 with
      | none => none
      | some (bs, s2) => some (b :: bs, s2)

/-- A constructed `fibers::ThreadPoolExecutor`, identified by the worker-thread
count it was built with (`with_thread_count` argument, lib.rs:82).  A
`ThreadPoolExecutorHandle` is a cloneable reference to the executor; clones are
modelled as equal values. -/
structure Executor where
  threadCount : Nat
  deriving DecidableEq, Repr

/-- State of the lazily initialized `GLOBAL_EXECUTOR` (lib.rs:78-92) together with
the thread-count gate.  `exec` is `none` while uninitialized; `constructions`
counts how many times the executor constructor has run. -/
structure GlobalState where
  gate : Nat
  exec : Option Executor
  constructions : Nat
  deriving DecidableEq, Repr

/-- Modelled from the spec: the `lazy_static!` one-shot initialization guard behind
`GLOBAL_EXECUTOR` is an external collaborator whose expansion is not in the source.
Per the spec, construction is performed by exactly one caller even under concurrent
first-time access and all concurrent callers block until it completes, so each
`handle()` call is one atomic transition on the global state.  The initializer body
(lib.rs:79-91) is embedded directly: if already initialized, return the stored
handle; otherwise call `get_thread_count`, build the executor via `ctor` (embedding
`ThreadPoolExecutor::with_thread_count`, `none` meaning construction failure), and
on failure the `.expect` panic is `Except.error` with the message from the source,
leaving the executor cell uninitialized. -/
def handleCall (ctor : Nat → Option Executor) (numCpus : Nat) (s : GlobalState) :
    Except String Executor × GlobalState :=
  match s.exec with
  | some h => (Except.ok h, s)
  | none =>
    let p := get_thread_count numCpus s.gate
    match ctor p.1 with
    | none =>
      (Except.error "Cannot create the global `ThreadPoolExecutor`",
       GlobalState.mk p.2 none s.constructions)
    | some ex =>
      (Except.ok ex, GlobalState.mk p.2 (some ex) (s.constructions + 1))

/-- `k` successive `handle()` calls, collecting the returned handles. -/
def runHandles (ctor : Nat → Option Executor) (numCpus : Nat) :
    Nat → GlobalState → List (Except String Executor) × GlobalState
  | 0, s => ([], s)
  | k + 1, s =>
    let p := handleCall ctor numCpus s
    let q := runHandles ctor numCpus k p.2
    (p.1 :: q.1, q.2)

/-- One value observed by a `monitor.poll()` call in the loop of `execute`
(lib.rs:126-133). -/
inductive PollResult (V E : Type) where
  | aborted
  | failed (e : E)
  | ready (v : V)
  | notReady
  deriving DecidableEq, Repr

/-- Outcome of `execute`: a normal `Ok`/`Err` return, or the `panic!` raised on
`MonitorError::Aborted`, carrying the panic message. -/
inductive ExecResult (V E : Type) where
  | ok (v : V)
  | err (e : E)
  | panic (msg : String)
  deriving DecidableEq, Repr

/-- The sleep interval of the polling loop of `execute`:
`Duration::from_millis(1)` (lib.rs:131), in milliseconds. -/
def sleepIntervalMillis : Nat := 1

/-- Embedding of the loop of `execute` (lib.rs:125-134) over the sequence of values
its successive `monitor.poll()` calls observe.  `sleeps` counts the
`thread::sleep(Duration::from_millis(1))` calls executed so far.  The function
returns the result together with the total sleep count, or `none` when the
observation sequence is exhausted with the loop still running (the monitor still
pending on every observed poll). -/
def executeLoop {V E : Type} :
    List (PollResult V E) → Nat → Option (ExecResult V E × Nat)
  | [], _ => none
  | p :: rest, sleeps =>
    match p with
    | PollResult.aborted =>
        some (ExecResult.panic "The global `ThreadPoolExecutor` aborted", sleeps)
    | PollResult.failed e => some (ExecResult.err e, sleeps)
    | PollResult.ready v => some (ExecResult.ok v, sleeps)
    | PollResult.notReady => executeLoop rest (sleeps + 1)

/-- `execute` (lib.rs:118-135): the polling loop started with zero sleeps,
reading the given sequence of poll observations. -/
def execute {V E : Type} (polls : List (PollResult V E)) :
    Option (ExecResult V E × Nat) :=
  executeLoop polls 0

/-! ### Helper lemmas -/

/-- From a frozen gate, every valid `set_thread_count` call returns `false` and
leaves the gate frozen. -/
theorem runConfigs_locked (ns : List Nat)
    (hvalid : ∀ n ∈ ns, n ≠ 0 ∧ n ≠ USIZE_MAX) :
    runConfigs ns USIZE_MAX = some (List.replicate ns.length false, USIZE_MAX) := by
  induction ns with
  | nil => rfl
  | cons n ns ih =>
    have hn := hvalid n (List.mem_cons_self n ns)
    have hns : ∀ m ∈ ns, m ≠ 0 ∧ m ≠ USIZE_MAX := fun m hm =>
      hvalid m (List.mem_cons_of_mem n hm)
    simp [runConfigs, set_thread_count, hn.1, hn.2, ih hns, List.replicate]

/-- The gate stays strictly below `usize::MAX` across any panic-free sequence of
`set_thread_count` calls with `usize`-ranged arguments. -/
theorem runConfigs_lt_max (ns : List Nat) :
    ∀ s bs s2, (∀ n ∈ ns, n ≤ USIZE_MAX) → s < USIZE_MAX →
      runConfigs ns s = some (bs, s2) → s2 < USIZE_MAX := by
  induction ns with
  | nil =>
    intro s bs s2 _ hs hrun
    simp [runConfigs] at hrun
    omega
  | cons n ns ih =>
    intro s bs s2 hrange hs hrun
    have hne : s ≠ USIZE_MAX := Nat.ne_of_lt hs
    by_cases h0 : n = 0
    · simp [runConfigs, set_thread_count, h0] at hrun
    · by_cases hmax : n = USIZE_MAX
      · simp [runConfigs, set_thread_count, h0, hmax] at hrun
      · have hn : n < USIZE_MAX :=
          lt_of_le_of_ne (hrange n (List.mem_cons_self n ns)) hmax
        have hset : set_thread_count n s = some (true, n) := by
          simp [set_thread_count, h0, hmax, hne]
        have hrange2 : ∀ m ∈ ns, m ≤ USIZE_MAX := fun m hm =>
          hrange m (List.mem_cons_of_mem n hm)
        cases hrec : runConfigs ns n with
        | none =>
          simp only [runConfigs, hset, hrec] at hrun
          exact Option.noConfusion hrun
        | some pr =>
          obtain ⟨bs1, s1⟩ := pr
          simp only [runConfigs, hset, hrec, Option.some.injEq, Prod.mk.injEq] at hrun
          exact hrun.2 ▸ ih n bs1 s1 hrange2 hn hrec

/-! ### Claim theorems -/

/-- C2: `get_thread_count` reads the gate and replaces it with the `LOCKED`
sentinel (`usize::MAX`) in one transition; if the value read was the `UNSET`
sentinel `0` it returns the host CPU count, otherwise exactly the value read. -/
theorem consume_and_lock_spec (numCpus s : Nat) :
    (get_thread_count numCpus s).2 = USIZE_MAX ∧
    (s = 0 → (get_thread_count numCpus s).1 = numCpus) ∧
    (s ≠ 0 → (get_thread_count numCpus s).1 = s) := by
  refine ⟨rfl, ?_, ?_⟩
  · intro h; subst h; rfl
  · intro h; cases s with
    | zero => exact absurd rfl h
    | succ m => rfl

/-- Witness for C2 at concrete inputs: an unset gate yields the CPU count, a
configured gate yields the stored count, and the gate is left locked. -/
theorem consume_and_lock_spec_witness :
    (get_thread_count 8 0).1 = 8 ∧ (get_thread_count 8 5).1 = 5 ∧
    (get_thread_count 8 5).2 = USIZE_MAX :=
  ⟨(consume_and_lock_spec 8 0).2.1 rfl,
   (consume_and_lock_spec 8 5).2.2 (by decide),
   (consume_and_lock_spec 8 5).1⟩

/-- C6: `set_thread_count` panics exactly when its argument is `0` or the
`usize::MAX` sentinel; for every other argument it does not panic, and the panic
never stores a clamped value (the `none` carries no state update). -/
theorem set_thread_count_panic_iff (n s : Nat) :
    set_thread_count n s = none ↔ (n = 0 ∨ n = USIZE_MAX) := by
  constructor
  · intro h
    by_cases h0 : n = 0
    · exact Or.inl h0
    · by_cases hmax : n = USIZE_MAX
      · exact Or.inr hmax
      · by_cases hs : s = USIZE_MAX <;>
          simp [set_thread_count, h0, hmax, hs] at h
  · intro h
    rcases h with h | h <;> simp [set_thread_count, h]

/-- Witness for C6: with the gate holding `5`, the argument `0` panics and so
does the `usize::MAX` sentinel. -/
theorem set_thread_count_panic_iff_witness :
    set_thread_count 0 5 = none ∧ set_thread_count USIZE_MAX 5 = none :=
  ⟨(set_thread_count_panic_iff 0 5).mpr (Or.inl rfl),
   (set_thread_count_panic_iff USIZE_MAX 5).mpr (Or.inr rfl)⟩

/-- Sleeping through `k` pending polls shifts the sleep accumulator by `k`. -/
theorem executeLoop_replicate_append {V E : Type} (k : Nat)
    (l : List (PollResult V E)) :
    ∀ acc, executeLoop (List.replicate k PollResult.notReady ++ l) acc =
      executeLoop l (acc + k) := by
  induction k with
  | zero => intro acc; simp [List.replicate]
  | succ m ih =>
    intro acc
    have h2 : acc + (m + 1) = (acc + 1) + m := by omega
    rw [h2, ← ih (acc + 1)]
    rfl

/-- The sleep accumulator only shifts the sleep count of the final result. -/
theorem executeLoop_shift {V E : Type} (polls : List (PollResult V E)) :
    ∀ acc, executeLoop polls acc =
      (executeLoop polls 0).map (fun q => (q.1, q.2 + acc)) := by
  induction polls with
  | nil => intro acc; simp [executeLoop]
  | cons p rest ih =>
    intro acc
    cases p with
    | aborted => simp [executeLoop]
    | failed e => simp [executeLoop]
    | ready v => simp [executeLoop]
    | notReady =>
      have lhs : executeLoop (PollResult.notReady :: rest) acc =
          executeLoop rest (acc + 1) := rfl
      have rhs : executeLoop (PollResult.notReady :: rest) 0 =
          executeLoop rest 1 := rfl
      rw [lhs, rhs, ih (acc + 1), ih 1]
      cases executeLoop rest 0 with
      | none => rfl
      | some q =>
        have h3 : q.2 + (acc + 1) = q.2 + 1 + acc := by omega
        simp [Option.map, h3]

/-- If `execute` returns with sleep count `k`, the first `k` polls all observed
`Pending` and poll `k` observed a terminal state. -/
theorem execute_some_characterization {V E : Type} :
    ∀ (polls : List (PollResult V E)) (r : ExecResult V E) (k : Nat),
      execute polls = some (r, k) →
        List.take k polls = List.replicate k PollResult.notReady ∧
        ∃ t, polls.get? k = some t ∧ t ≠ PollResult.notReady := by
  intro polls
  induction polls with
  | nil =>
    intro r k h
    exact Option.noConfusion h
  | cons p rest ih =>
    intro r k h
    cases p with
    | aborted =>
      simp only [execute, executeLoop, Option.some.injEq, Prod.mk.injEq] at h
      rw [← h.2]
      exact ⟨rfl, PollResult.aborted, rfl, fun hc => PollResult.noConfusion hc⟩
    | failed e =>
      simp only [execute, executeLoop, Option.some.injEq, Prod.mk.injEq] at h
      rw [← h.2]
      exact ⟨rfl, PollResult.failed e, rfl, fun hc => PollResult.noConfusion hc⟩
    | ready v =>
      simp only [execute, executeLoop, Option.some.injEq, Prod.mk.injEq] at h
      rw [← h.2]
      exact ⟨rfl, PollResult.ready v, rfl, fun hc => PollResult.noConfusion hc⟩
    | notReady =>
      have h1 : executeLoop rest 1 = some (r, k) := h
      rw [executeLoop_shift rest 1] at h1
      cases hbase : executeLoop rest 0 with
      | none =>
        rw [hbase] at h1
        exact Option.noConfusion h1
      | some q =>
        rw [hbase] at h1
        have h2 : (q.1, q.2 + 1) = (r, k) := Option.some.inj h1
        obtain ⟨r0, k0⟩ := q
        have hr : r0 = r := congrArg Prod.fst h2
        have hk : k0 + 1 = k := congrArg Prod.snd h2
        have hrest := ih r0 k0 (by rw [execute, hbase, hr])
        subst hr
        rw [← hk]
        refine ⟨?_, hrest.2⟩
        rw [List.take_succ_cons, hrest.1, List.replicate_succ]

/-- C3: when the monitor polled by `execute` reaches `Ready(v)` after any number of
pending polls, `execute` returns `Ok(v)`; when it reaches `Failed(e)`, `execute`
returns `Err(e)` — the error is propagated, not swallowed, and neither case is the
`Aborted` panic. -/
theorem execute_terminal_propagation {V E : Type} (k : Nat) (v : V) (e : E) :
    execute (List.replicate k PollResult.notReady ++
        [(PollResult.ready v : PollResult V E)]) =
      some (ExecResult.ok v, k) ∧
    execute (List.replicate k PollResult.notReady ++
        [(PollResult.failed e : PollResult V E)]) =
      some (ExecResult.err e, k) ∧
    (∀ msg, (ExecResult.ok v : ExecResult V E) ≠ ExecResult.panic msg) ∧
    (∀ msg, (ExecResult.err e : ExecResult V E) ≠ ExecResult.panic msg) := by
  refine ⟨?_, ?_, ?_, ?_⟩
  · rw [execute, executeLoop_replicate_append]
    simp [executeLoop]
  · rw [execute, executeLoop_replicate_append]
    simp [executeLoop]
  · exact fun msg hc => ExecResult.noConfusion hc
  · exact fun msg hc => ExecResult.noConfusion hc

/-- Witness for C3 at two pending polls: a computation producing `7` returns
`Ok 7`, one failing with `9` returns `Err 9`, each after two sleeps. -/
theorem execute_terminal_propagation_witness :
    execute (List.replicate 2 PollResult.notReady ++
        [(PollResult.ready 7 : PollResult Nat Nat)]) =
      some (ExecResult.ok 7, 2) ∧
    execute (List.replicate 2 PollResult.notReady ++
        [(PollResult.failed 9 : PollResult Nat Nat)]) =
      some (ExecResult.err 9, 2) :=
  ⟨(execute_terminal_propagation 2 7 (9 : Nat)).1,
   (execute_terminal_propagation 2 (7 : Nat) 9).2.1⟩

/-- C4: when the monitor polled by `execute` reaches `Aborted`, `execute` neither
returns a value nor an error: it panics with the driver-death message, an outcome
distinct from every `Ok` and every `Err`. -/
theorem execute_aborted_panics {V E : Type} (k : Nat) :
    execute ((List.replicate k PollResult.notReady : List (PollResult V E)) ++
        [PollResult.aborted]) =
      some (ExecResult.panic "The global `ThreadPoolExecutor` aborted", k) ∧
    (∀ v : V, (ExecResult.panic "The global `ThreadPoolExecutor` aborted" :
        ExecResult V E) ≠ ExecResult.ok v) ∧
    (∀ e : E, (ExecResult.panic "The global `ThreadPoolExecutor` aborted" :
        ExecResult V E) ≠ ExecResult.err e) := by
  refine ⟨?_, ?_, ?_⟩
  · rw [execute, executeLoop_replicate_append]
    simp [executeLoop]
  · exact fun v hc => ExecResult.noConfusion hc
  · exact fun e hc => ExecResult.noConfusion hc

/-- Witness for C4: after two pending polls, an `Aborted` observation makes
`execute` panic with the driver-death message. -/
theorem execute_aborted_panics_witness :
    execute ((List.replicate 2 PollResult.notReady : List (PollResult Nat Nat)) ++
        [PollResult.aborted]) =
      some (ExecResult.panic "The global `ThreadPoolExecutor` aborted", 2) :=
  (execute_aborted_panics 2).1

/-- C1: once initialization has read-and-replaced the gate with the `LOCKED`
sentinel via `get_thread_count`, the gate never transitions again: every
subsequent `set_thread_count` call whose argument satisfies the precondition
returns `false` and leaves the stored value at `usize::MAX`. -/
theorem locked_gate_never_transitions (numCpus s : Nat) (ns : List Nat)
    (hvalid : ∀ n ∈ ns, n ≠ 0 ∧ n ≠ USIZE_MAX) :
    (get_thread_count numCpus s).2 = USIZE_MAX ∧
    runConfigs ns (get_thread_count numCpus s).2 =
      some (List.replicate ns.length false, USIZE_MAX) :=
  ⟨rfl, runConfigs_locked ns hvalid⟩

/-- Witness for C1: after locking from an unset gate, the calls
`set_thread_count 2` and `set_thread_count 3` both return `false` and the gate
stays locked. -/
theorem locked_gate_never_transitions_witness :
    (get_thread_count 4 0).2 = USIZE_MAX ∧
    runConfigs [2, 3] (get_thread_count 4 0).2 =
      some (List.replicate 2 false, USIZE_MAX) :=
  locked_gate_never_transitions 4 0 [2, 3] (by decide)

/-- C5: two valid distinct configuration requests before first use both return
`true`, the second overwrites the first, and the eventually-initialized executor
uses the second count (`get_thread_count` returns it on initialization). -/
theorem reconfigure_before_init (numCpus n1 n2 : Nat)
    (h1 : 0 < n1) (h1m : n1 < USIZE_MAX) (h2 : 0 < n2) (h2m : n2 < USIZE_MAX)
    (hne : n1 ≠ n2) :
    runConfigs [n1, n2] THREAD_COUNT_INIT = some ([true, true], n2) ∧
    (get_thread_count numCpus n2).1 = n2 := by
  have e10 : n1 ≠ 0 := by omega
  have e1m : n1 ≠ USIZE_MAX := Nat.ne_of_lt h1m
  have e20 : n2 ≠ 0 := by omega
  have e2m : n2 ≠ USIZE_MAX := Nat.ne_of_lt h2m
  have hz : (0 : Nat) ≠ USIZE_MAX := by decide
  constructor
  · simp [runConfigs, set_thread_count, THREAD_COUNT_INIT, e10, e1m, e20, e2m,
      hz]
  · cases n2 with
    | zero => exact absurd rfl e20
    | succ m => rfl

/-- Witness for C5: configuring `2` then `3` before first use returns `true`
twice, and initialization consumes `3`. -/
theorem reconfigure_before_init_witness :
    runConfigs [2, 3] THREAD_COUNT_INIT = some ([true, true], 3) ∧
    (get_thread_count 4 3).1 = 3 :=
  reconfigure_before_init 4 2 3 (by decide) (by decide) (by decide) (by decide)
    (by decide)

/-- C7: `execute` never returns while the monitor is pending: a run whose every
poll observes `Pending` does not return; whenever `execute` does return after `k`
sleeps, the first `k` polls all observed `Pending` and poll `k` observed a
terminal state; and each pending observation sleeps for the fixed
one-millisecond interval. -/
theorem execute_blocks_until_terminal {V E : Type} :
    (∀ k : Nat,
      execute (List.replicate k (PollResult.notReady : PollResult V E)) = none) ∧
    (∀ (polls : List (PollResult V E)) (r : ExecResult V E) (k : Nat),
      execute polls = some (r, k) →
        List.take k polls = List.replicate k PollResult.notReady ∧
        ∃ t, polls.get? k = some t ∧ t ≠ PollResult.notReady) ∧
    sleepIntervalMillis = 1 := by
  refine ⟨?_, execute_some_characterization, rfl⟩
  intro k
  rw [execute, show (List.replicate k (PollResult.notReady : PollResult V E)) =
    List.replicate k PollResult.notReady ++ [] from by simp,
    executeLoop_replicate_append]
  rfl

/-- Witness for C7: a run returning after one sleep had its first poll pending
and its second poll terminal. -/
theorem execute_blocks_until_terminal_witness :
    List.take 1 [PollResult.notReady, PollResult.ready (7 : Nat)] =
      List.replicate 1 (PollResult.notReady : PollResult Nat Nat) ∧
    ∃ t, ([PollResult.notReady, PollResult.ready 7] :
        List (PollResult Nat Nat)).get? 1 = some t ∧
      t ≠ PollResult.notReady :=
  execute_blocks_until_terminal.2.1
    [PollResult.notReady, PollResult.ready 7] (ExecResult.ok 7) 1 rfl

/-- C10: the worker count passed to the executor constructor — the value
`get_thread_count` returns on the single initializing call — is at least `1` and
strictly below `usize::MAX`, for every gate state reachable by panic-free
configuration calls from the initial state, given that the host CPU count is a
positive `usize` below the sentinel. -/
theorem effective_thread_count_in_range (numCpus s : Nat)
    (hcpu1 : 1 ≤ numCpus) (hcpu2 : numCpus < USIZE_MAX)
    (hreach : ∃ ns bs, (∀ n ∈ ns, n ≤ USIZE_MAX) ∧
        runConfigs ns THREAD_COUNT_INIT = some (bs, s)) :
    1 ≤ (get_thread_count numCpus s).1 ∧
    (get_thread_count numCpus s).1 < USIZE_MAX := by
  obtain ⟨ns, bs, hrange, hrun⟩ := hreach
  have hz : (THREAD_COUNT_INIT : Nat) < USIZE_MAX := by decide
  have hs : s < USIZE_MAX := runConfigs_lt_max ns THREAD_COUNT_INIT bs s hrange
    hz hrun
  cases s with
  | zero => exact ⟨hcpu1, hcpu2⟩
  | succ m => exact ⟨Nat.succ_le_succ (Nat.zero_le m), hs⟩

/-- Witness for C10: with four CPUs and a gate configured to `3`, initialization
passes the in-range count `3` to the constructor. -/
theorem effective_thread_count_in_range_witness :
    1 ≤ (get_thread_count 4 3).1 ∧ (get_thread_count 4 3).1 < USIZE_MAX :=
  effective_thread_count_in_range 4 3 (by decide) (by decide)
    ⟨[3], [true], by decide, by decide⟩

/-- Once the singleton holds an executor, every further `handle()` call returns
that same executor and leaves the state untouched. -/
theorem runHandles_inited (ctor : Nat → Option Executor) (numCpus : Nat)
    (ex : Executor) :
    ∀ (k : Nat) (s : GlobalState), s.exec = some ex →
      runHandles ctor numCpus k s = (List.replicate k (Except.ok ex), s) := by
  intro k
  induction k with
  | zero => intro s _; rfl
  | succ m ih =>
    intro s hexec
    have hcall : handleCall ctor numCpus s = (Except.ok ex, s) := by
      rw [handleCall, hexec]
    simp only [runHandles, hcall, ih s hexec, List.replicate_succ]

/-- C8: the shared executor is constructed exactly once: starting uninitialized,
any positive number of `handle()` calls — each one an atomic transition, per the
initialization guard contract — performs exactly one construction, every call
returns the same executor, and the final state stores that executor with the
gate locked. -/
theorem handle_constructs_exactly_once (ctor : Nat → Option Executor)
    (numCpus g k : Nat) (ex : Executor)
    (hctor : ctor (get_thread_count numCpus g).1 = some ex) (hk : 1 ≤ k) :
    (runHandles ctor numCpus k (GlobalState.mk g none 0)).1 =
      List.replicate k (Except.ok ex) ∧
    (runHandles ctor numCpus k (GlobalState.mk g none 0)).2 =
      GlobalState.mk USIZE_MAX (some ex) 1 := by
  cases k with
  | zero => omega
  | succ m =>
    have hcall : handleCall ctor numCpus (GlobalState.mk g none 0) =
        (Except.ok ex, GlobalState.mk USIZE_MAX (some ex) 1) := by
      rw [handleCall]
      simp only [hctor]
      rfl
    have hrest := runHandles_inited ctor numCpus ex m
      (GlobalState.mk USIZE_MAX (some ex) 1) rfl
    rw [runHandles]
    simp [hcall, hrest, List.replicate_succ]

/-- Witness for C8: three `handle()` calls on a fresh state with four CPUs all
return the executor built with four workers, and construction ran once. -/
theorem handle_constructs_exactly_once_witness :
    (runHandles (fun c => some (Executor.mk c)) 4 3 (GlobalState.mk 0 none 0)).1 =
      List.replicate 3 (Except.ok (Executor.mk 4)) ∧
    (runHandles (fun c => some (Executor.mk c)) 4 3 (GlobalState.mk 0 none 0)).2 =
      GlobalState.mk USIZE_MAX (some (Executor.mk 4)) 1 :=
  handle_constructs_exactly_once (fun c => some (Executor.mk c)) 4 0 3
    (Executor.mk 4) rfl (by decide)

/-- C9: if the scheduler constructor fails during first use, `handle()` escalates
the `.expect` panic with its distinct message and the singleton stays
uninitialized — no usable handle is published and the construction counter does
not move. -/
theorem construction_failure_is_fatal (ctor : Nat → Option Executor)
    (numCpus g c : Nat)
    (hfail : ctor (get_thread_count numCpus g).1 = none) :
    handleCall ctor numCpus (GlobalState.mk g none c) =
      (Except.error "Cannot create the global `ThreadPoolExecutor`",
       GlobalState.mk USIZE_MAX none c) := by
  rw [handleCall]
  simp only [hfail]
  rfl

/-- Witness for C9: a constructor that always fails makes the first `handle()`
call return the construction-failure panic and leaves the executor cell empty. -/
theorem construction_failure_is_fatal_witness :
    handleCall (fun _ => none) 4 (GlobalState.mk 0 none 0) =
      (Except.error "Cannot create the global `ThreadPoolExecutor`",
       GlobalState.mk USIZE_MAX none 0) :=
  construction_failure_is_fatal (fun _ => none) 4 0 0 rfl

end FibersGlobal
